import Mathlib

/-!
Shallow embedding of the playback backends of the orochi music player
(src/orochi/player.py, src/orochi/backends/mpd.py) and proofs about them.

Process I/O is modelled by traces: each `read()` of the child process is one
string chunk of the trace, each `write()` is recorded as an action.  Wall-clock
time in the bounded wait loops is modelled by pairing each read with the value
of `time.time() - start` sampled at the loop's deadline check.
-/

namespace Orochi

/-! ## String scanning (Python `in`, `str.startswith`, `shlex.quote`) -/

/-- Decide whether the first list is a prefix of the second (character lists). -/
def hasPrefixChars : List Char → List Char → Bool
  | [], _ => true
  | _ :: _, [] => false
  | p :: ps, h :: hs => p == h && hasPrefixChars ps hs

/-- Decide whether `needle` occurs contiguously inside the haystack, as in
Python's `needle in haystack` on strings. -/
def containsSubChars (needle : List Char) : List Char → Bool
  | [] => hasPrefixChars needle []
  | c :: t => hasPrefixChars needle (c :: t) || containsSubChars needle t

/-- Python's `needle in hay` for strings. -/
def pyContains (needle hay : String) : Bool :=
  containsSubChars needle.data hay.data

/-- Characters that `shlex.quote` leaves unquoted: letters, digits, underscore
and the punctuation `@ % + = : , . - ` and the forward slash. -/
def shlexSafeChar (c : Char) : Bool :=
  c.isAlpha || c.isDigit || ("_@%+=:,./-".data.contains c)

/-- A single-quote character, as a string. -/
def squote : String := "\x27"

/-- Python's `shlex.quote` (`pipes.quote` on Python 2.7): return the string
unchanged when every character is safe, otherwise wrap it in single quotes,
escaping embedded single quotes. -/
def shlexQuote (s : String) : String :=
  if s = "" then squote ++ squote
  else if s.data.all shlexSafeChar then s
  else squote ++ (s.replace squote (squote ++ "\"" ++ squote ++ "\"" ++ squote)) ++ squote

/-! ## Python `int()` coercion -/

/-- Values a Python caller can pass for the `amount` argument of `volume`. -/
inductive PyVal
  | int (n : ℤ)
  | float (q : ℚ)
  | str (s : String)
  deriving DecidableEq, Repr

/-- Numeric value of a digit list (most significant first). -/
def digitsVal (l : List Char) : ℕ :=
  l.foldl (fun a c => a * 10 + (c.toNat - 48)) 0

/-- Parse a nonempty all-digit character list, else fail. -/
def digitsToNat (l : List Char) : Option ℕ :=
  if l.isEmpty then none
  else if l.all Char.isDigit then some (digitsVal l) else none

/-- Python `int(s)` for a string: strip surrounding whitespace, allow one
optional sign, then require a nonempty run of digits. -/
def pyIntOfString (s : String) : Option ℤ :=
  let cs := ((s.data.dropWhile Char.isWhitespace).reverse.dropWhile Char.isWhitespace).reverse
  match cs with
  | '-' :: rest => (digitsToNat rest).map (fun n => -(n : ℤ))
  | '+' :: rest => (digitsToNat rest).map (fun n => (n : ℤ))
  | rest => (digitsToNat rest).map (fun n => (n : ℤ))

/-- Python `int(f)` for a float: truncation toward zero. -/
def pyTruncFloat (q : ℚ) : ℤ :=
  Int.tdiv q.num q.den

/-- Python's `int(amount)` as used by `volume`: identity on ints, truncation on
floats, strict decimal parsing on strings; `none` models a raised ValueError. -/
def pyInt : PyVal → Option ℤ
  | .int n => some n
  | .float q => some (pyTruncFloat q)
  | .str s => pyIntOfString s

/-! ## Signals and the slave-mode status monitor (player.py `playback_status`) -/

/-- Signals sent with `os.kill` (src/orochi/signals.py): `SONG_ENDED` is
SIGUSR1, `REGISTER_SONG` is SIGUSR2. -/
inductive Signal
  | SONG_ENDED
  | REGISTER_SONG
  deriving DecidableEq, Repr

/-- Number of occurrences of a signal in an emission list. -/
def countSig (sig : Signal) : List Signal → ℕ
  | [] => 0
  | s :: t => (if s = sig then 1 else 0) + countSig sig t

/-- End-of-stream marker scanned for by the monitor. -/
def eofMarker : String := "GLOBAL: EOF code: 1"

/-- Literal part of the regex `GLOBAL: ANS_TIME_POSITION=([0-9]+\.[0-9]+)`. -/
def timePosMarker : String := "GLOBAL: ANS_TIME_POSITION="

/-- Parse `[0-9]+\.[0-9]+` at the head of the character list, as the exact
rational `d1.d2` (integer part plus fractional digits over a power of ten). -/
def parseTimePos (l : List Char) : Option ℚ :=
  let d1 := l.takeWhile Char.isDigit
  let r1 := l.dropWhile Char.isDigit
  if d1.isEmpty then none
  else
    match r1 with
    | '.' :: r2 =>
      let d2 := r2.takeWhile Char.isDigit
      if d2.isEmpty then none
      else some (mkRat (digitsVal d1 * 10 ^ d2.length + digitsVal d2) (10 ^ d2.length))
    | _ => none

/-- Strip the first list off the front of the second, or fail. -/
def stripPrefixChars : List Char → List Char → Option (List Char)
  | [], hay => some hay
  | _ :: _, [] => none
  | p :: ps, h :: hs => if p == h then stripPrefixChars ps hs else none

/-- `re.search` for the time-position pattern: first position where the literal
marker is followed by `[0-9]+\.[0-9]+`, returning the captured value. -/
def searchTimePos : List Char → Option ℚ
  | [] => none
  | c :: t =>
    match stripPrefixChars timePosMarker.data (c :: t) with
    | some rest =>
      match parseTimePos rest with
      | some v => some v
      | none => searchTimePos t
    | none => searchTimePos t

/-- One iteration of the `playback_status` loop body, given the local
`reported` flag and the chunk returned by `process.read()`.  Returns the new
`reported` flag, the lines written to the process, and the signals sent.
Mirrors player.py lines 165-180: the position query is written unless
`reported` is set; a chunk containing the end-of-stream marker sends
`SONG_ENDED`; a position match of at least 30 sends `REGISTER_SONG` once and
sets `reported`. -/
def playbackStatusStep (pausing_keep : String) (reported : Bool) (stdout : String) :
    Bool × List String × List Signal :=
  let writes := if reported = false then [pausing_keep ++ " get_time_pos\n"] else []
  if stdout = "" then (reported, writes, [])
  else
    let kills1 := if pyContains eofMarker stdout then [Signal.SONG_ENDED] else []
    if reported = false then
      match searchTimePos stdout.data with
      | some v =>
        if 30 ≤ v then (true, writes, kills1 ++ [Signal.REGISTER_SONG])
        else (false, writes, kills1)
      | none => (false, writes, kills1)
    else (true, writes, kills1)

/-- Signals emitted by the monitor over a trace of observed read chunks,
starting from a given `reported` flag. -/
def playbackStatusRun (pausing_keep : String) : Bool → List String → List Signal
  | _, [] => []
  | reported, s :: rest =>
    match playbackStatusStep pausing_keep reported s with
    | (r2, _, ks) => ks ++ playbackStatusRun pausing_keep r2 rest

/-! ## Errors (src/orochi/errors.py and Python builtins) -/

/-- Exceptions the backends raise.  `initializationError`, `terminatedError`
and `commandError` are the classes of src/orochi/errors.py; `runtimeError` is
the builtin RuntimeError raised by the handshake and playback wait loops of
player.py; `valueError` is the builtin ValueError raised by `volume`.
Formatted-in numeric values are elided from the message texts. -/
inductive PyError
  | initializationError (msg : String)
  | runtimeError (msg : String)
  | terminatedError (msg : String)
  | valueError (msg : String)
  | commandError (msg : String)
  deriving DecidableEq, Repr

/-- Message of the TerminatedError raised by `DeadMPlayer.__getattr__`. -/
def deadMPlayerMsg : String :=
  "MPlayer has been terminated and cannot be used anymore."

/-- Message of the RuntimeError raised when the startup banner never arrives
(player.py line 74, the formatted timeout elided). -/
def handshakeTimeoutMsg : String :=
  "MPlayer didn\x27t start within the timeout. Something must have gone wrong."

/-- Message of the RuntimeError raised when playback never starts
(player.py line 151, the formatted timeout elided). -/
def playbackTimeoutMsg : String :=
  "Playback didn\x27t start within the timeout. Something must have gone wrong. " ++
  "Are you experiencing network problems?"

/-- Message of the ValueError raised by `MPlayer.volume`. -/
def mplayerVolumeMsg : String :=
  "``amount`` must be a number between 0 and 100."

/-- Message of the ValueError raised by `MPDPlayer.volume`. -/
def mpdVolumeMsg : String :=
  "``amount`` must be an integer between 0 and 100."

/-- The abstract error taxonomy the specification uses in section 7.  The
source distinguishes these failures by exception class and, for the two
builtin RuntimeErrors, by raise site (message); this map classifies each
concrete error into the kind named by the spec. -/
inductive SpecErrorKind
  | initialization
  | playbackStart
  | command
  | invalidArgument
  | terminated
  deriving DecidableEq, Repr

/-- Classify a concrete exception into the specification's error taxonomy. -/
def specKind : PyError → Option SpecErrorKind
  | .initializationError _ => some .initialization
  | .runtimeError m =>
    if m = handshakeTimeoutMsg then some .initialization
    else if m = playbackTimeoutMsg then some .playbackStart
    else none
  | .terminatedError _ => some .terminated
  | .valueError _ => some .invalidArgument
  | .commandError _ => some .command

/-! ## The slave-mode backend (player.py `MPlayer`) -/

/-- Externally visible interactions of an `MPlayer` method: a line written to
the child's stdin, stopping and joining the monitor thread
(`_stop_background_thread` with the thread alive), terminating the child
process, and starting a fresh monitor thread. -/
inductive MPAction
  | write (line : String)
  | stopJoinMonitor
  | procTerminate
  | startMonitor
  deriving DecidableEq, Repr

/-- State of an `MPlayer` instance.  `terminated` records whether `self.p` has
been replaced by the `DeadMPlayer` sentinel; `monitorLive` whether a
`playback_status` thread is running (`self.t is not None and self.t.is_alive()`). -/
structure MPlayerState where
  timeout : ℚ
  pausing_keep : String
  terminated : Bool
  monitorLive : Bool
  deriving DecidableEq, Repr

instance exceptDecEq {ε α : Type} [DecidableEq ε] [DecidableEq α] :
    DecidableEq (Except ε α) := fun a b =>
  match a, b with
  | .ok x, .ok y =>
    match decEq x y with
    | isTrue h => isTrue (h ▸ rfl)
    | isFalse h => isFalse (fun hh => h (Except.noConfusion hh id))
  | .ok _, .error _ => isFalse (fun h => Except.noConfusion h)
  | .error _, .ok _ => isFalse (fun h => Except.noConfusion h)
  | .error e, .error f =>
    match decEq e f with
    | isTrue h => isTrue (h ▸ rfl)
    | isFalse h => isFalse (fun hh => h (Except.noConfusion hh id))

/-- Result of one `MPlayer` method call: successor state, recorded
interactions, raised exception if any. -/
structure MPOut where
  state : MPlayerState
  actions : List MPAction
  res : Except PyError Unit
  deriving DecidableEq, Repr

/-- Startup banner awaited during construction. -/
def bannerMarker : String := "CPLAYER: MPlayer"

/-- Marker awaited by `load` before starting the monitor. -/
def startedMarker : String := "CPLAYER: Starting playback..."

/-- Response marker of the `pausing_keep_force` capability probe. -/
def probeMarker : String := "GLOBAL: ANS_ERROR=PROPERTY_UNKNOWN"

/-- The handshake wait loop of `MPlayer.__init__` (lines 69-77) over a trace of
reads, each paired with the elapsed time `time.time() - start` sampled at the
deadline check: `some true` when the banner arrived, `some false` when the
deadline elapsed first, `none` when the trace does not decide the loop. -/
def handshakeScan (timeout : ℚ) : List (ℚ × String) → Option Bool
  | [] => none
  | (t, s) :: rest =>
    if pyContains bannerMarker s then some true
    else if t > timeout then some false
    else handshakeScan timeout rest

/-- The capability-probe loop of `MPlayer.__init__` (lines 82-89): reads are
consumed while less than 0.1 seconds (one tenth, written `mkRat 1 10`) have
elapsed; the capability is detected as soon as a chunk contains the probe
response marker. -/
def probeScan : List (ℚ × String) → Bool
  | [] => false
  | (t, s) :: rest =>
    if t < mkRat 1 10 then
      if pyContains probeMarker s then true else probeScan rest
    else false

/-- `MPlayer.__init__`: `retcode` is the exit code of `mplayer --version`
(127 when the binary is missing), `handshake` and `probe` are the read traces
of the two wait loops.  Returns `none` when the handshake trace does not
decide its loop. -/
def MPlayer.init (retcode : ℤ) (timeout : ℚ) (handshake probe : List (ℚ × String)) :
    Option (Except PyError MPlayerState) :=
  if retcode = 127 then
    some (.error (.initializationError
      "mplayer binary not found. Are you sure MPlayer is installed?"))
  else
    match handshakeScan timeout handshake with
    | some true =>
      let hasForce := probeScan probe
      some (.ok
        { timeout := timeout
          pausing_keep := if hasForce then "pausing_keep_force" else "pausing_keep"
          terminated := false
          monitorLive := false })
    | some false => some (.error (.runtimeError handshakeTimeoutMsg))
    | none => none

/-- `MPlayer._send_command` after formatting: writing to the `DeadMPlayer`
sentinel raises TerminatedError, otherwise the newline-terminated line is
written to the child's stdin. -/
def sendCommand (st : MPlayerState) (line : String) : MPOut :=
  if st.terminated then ⟨st, [], .error (.terminatedError deadMPlayerMsg)⟩
  else ⟨st, [.write (line ++ "\n")], .ok ()⟩

/-- `MPlayer._stop_background_thread` with `blocking=True`: when a monitor
thread is alive, set its stop event and join it. -/
def stopBackgroundThread (st : MPlayerState) : MPlayerState × List MPAction :=
  if st.monitorLive then ({ st with monitorLive := false }, [.stopJoinMonitor])
  else (st, [])

/-- `MPlayer.terminate` (lines 215-222).  `hasattr(self.p, 'terminate')` is
False once `self.p` is the `DeadMPlayer` sentinel: its `__getattr__` raises
TerminatedError, which `hasattr` swallows on Python 2.7, the interpreter the
package declares.  So a repeated call is a no-op. -/
def MPlayer.terminate (st : MPlayerState) : MPOut :=
  if st.terminated then ⟨st, [], .ok ()⟩
  else
    match stopBackgroundThread st with
    | (st1, acts1) => ⟨{ st1 with terminated := true }, acts1 ++ [.procTerminate], .ok ()⟩

/-- Outcome of the playback-start wait loop of `load`. -/
inductive LoadOutcome
  | started
  | timedOut
  deriving DecidableEq, Repr

/-- The playback-start wait loop of `MPlayer.load` (lines 145-153) over a trace
of reads paired with elapsed times: `some .started` when the marker arrived,
`some .timedOut` when the deadline elapsed first, `none` when the trace does
not decide the loop. -/
def loadScan (timeout : ℚ) : List (ℚ × String) → Option LoadOutcome
  | [] => none
  | (t, s) :: rest =>
    if pyContains startedMarker s then some .started
    else if t > timeout then some .timedOut
    else loadScan timeout rest

/-- Python's `url.startswith(pre)`. -/
def pyStartsWith (pre url : String) : Bool :=
  hasPrefixChars pre.data url.data

/-- Python's `url[n:]`. -/
def strDrop (url : String) (n : ℕ) : String :=
  ⟨url.data.drop n⟩

/-- The https downgrade of `MPlayer.load` (lines 136-138):
`'http:' + url[6:]` when the URL starts with `https:`. -/
def fixHttps (url : String) : String :=
  if pyStartsWith "https:" url then "http:" ++ strDrop url 6 else url

/-- The `loadfile` command line, with its argument `shlex.quote`d by
`_send_command`. -/
def loadLine (url : String) : String := "loadfile " ++ shlexQuote url

/-- The volume command line `'{} volume {} 1'` of `MPlayer.volume`. -/
def volumeLine (pausing_keep : String) (n : ℤ) : String :=
  shlexQuote pausing_keep ++ " volume " ++ shlexQuote (toString n) ++ " 1"

/-- The stop command line `'{} stop'` of `MPlayer.stop`. -/
def stopLine (pausing_keep : String) : String := shlexQuote pausing_keep ++ " stop"

/-- `MPlayer.load` (lines 125-185).  `resolve` stands for the redirect
resolution `requests.head(path, allow_redirects=True).url`; `reads` is the
trace of the playback-start wait loop.  Returns `none` when that trace does
not decide the loop.  On timeout the backend is terminated and the
RuntimeError surfaces; on success a fresh monitor thread is started. -/
def MPlayer.load (st : MPlayerState) (path : String) (resolve : String → String)
    (reads : List (ℚ × String)) : Option MPOut :=
  let url := fixHttps (resolve path)
  match stopBackgroundThread st with
  | (st1, acts1) =>
    match sendCommand st1 (loadLine url) with
    | ⟨st2, acts2, .error e⟩ => some ⟨st2, acts1 ++ acts2, .error e⟩
    | ⟨st2, acts2, .ok _⟩ =>
      match loadScan st2.timeout reads with
      | some .started =>
        some ⟨{ st2 with monitorLive := true }, acts1 ++ acts2 ++ [.startMonitor], .ok ()⟩
      | some .timedOut =>
        match MPlayer.terminate st2 with
        | ⟨st3, acts3, _⟩ =>
          some ⟨st3, acts1 ++ acts2 ++ acts3, .error (.runtimeError playbackTimeoutMsg)⟩
      | none => none

/-- `MPlayer.playpause` (lines 187-189): sends the bare `pause` command. -/
def MPlayer.playpause (st : MPlayerState) : MPOut :=
  sendCommand st "pause"

/-- `MPlayer.stop` (lines 191-194): sends `'{} stop'`, then stops the monitor. -/
def MPlayer.stop (st : MPlayerState) : MPOut :=
  match sendCommand st (stopLine st.pausing_keep) with
  | ⟨st1, acts, .error e⟩ => ⟨st1, acts, .error e⟩
  | ⟨st1, acts, .ok _⟩ =>
    match stopBackgroundThread st1 with
    | (st2, acts2) => ⟨st2, acts ++ acts2, .ok ()⟩

/-- `MPlayer.volume` (lines 196-213): coerce with `int()`, range-check, then
send `'{} volume {} 1'`; a coercion failure or failed assertion raises
ValueError before anything is written. -/
def MPlayer.volume (st : MPlayerState) (amount : PyVal) : MPOut :=
  match pyInt amount with
  | none => ⟨st, [], .error (.valueError mplayerVolumeMsg)⟩
  | some n =>
    if 0 ≤ n ∧ n ≤ 100 then sendCommand st (volumeLine st.pausing_keep n)
    else ⟨st, [], .error (.valueError mplayerVolumeMsg)⟩

/-- Signals the monitor thread started by a successful `load` emits on a trace
of read chunks: the closure-local `reported` flag starts out False. -/
def startedMonitorRun (st : MPlayerState) (chunks : List String) : List Signal :=
  playbackStatusRun st.pausing_keep false chunks

/-! ## The idle-protocol backend (backends/mpd.py `MPDPlayer`) -/

/-- State of the external MPD daemon as driven by the commands mpd.py issues,
modelled from the MPD protocol semantics of exactly those commands: `clear`
empties the queue and stops playback, `add` appends a URL to the queue, `play`
starts, `pause` toggles, `stop` stops, `setvol` sets the volume. -/
structure MPDState where
  queue : List String
  state : String
  volumeLevel : ℤ
  deriving DecidableEq, Repr

/-- MPD `clear`. -/
def mpdClear (d : MPDState) : MPDState := { d with queue := [], state := "stop" }

/-- MPD `add`. -/
def mpdAdd (d : MPDState) (url : String) : MPDState := { d with queue := d.queue ++ [url] }

/-- MPD `play`. -/
def mpdPlay (d : MPDState) : MPDState := { d with state := "play" }

/-- MPD `pause` (toggle). -/
def mpdPause (d : MPDState) : MPDState :=
  { d with state :=
      if d.state = "play" then "pause" else if d.state = "pause" then "play" else d.state }

/-- MPD `stop`. -/
def mpdStop (d : MPDState) : MPDState := { d with state := "stop" }

/-- MPD `setvol`. -/
def mpdSetvol (d : MPDState) (n : ℤ) : MPDState := { d with volumeLevel := n }

/-- State of an `MPDPlayer` instance: the daemon it drives and the stop flag
of its `StatusThread` (`self._stop`). -/
structure MPDPlayerState where
  daemon : MPDState
  statusStop : Bool
  deriving DecidableEq, Repr

/-- Message of the InitializationError raised by the `connection()` context
manager when connecting fails (details elided). -/
def connectFailMsg : String := "Could not connect to mpd"

/-- `MPDPlayer.load` (mpd.py lines 178-200): resolve redirects, connect, clear
the queue, add the track, play.  `connOk` models whether connecting to the
daemon succeeds; on failure the context manager raises InitializationError.
Daemon-side command rejections (mpd.CommandError) are not modelled. -/
def MPDPlayer.load (st : MPDPlayerState) (path : String) (resolve : String → String)
    (connOk : Bool) : MPDPlayerState × Except PyError Unit :=
  let url := resolve path
  if connOk then
    ({ st with daemon := mpdPlay (mpdAdd (mpdClear st.daemon) url) }, .ok ())
  else (st, .error (.initializationError connectFailMsg))

/-- `MPDPlayer.playpause` (lines 202-209): connect and send `pause`.  There is
no terminated check. -/
def MPDPlayer.playpause (st : MPDPlayerState) (connOk : Bool) :
    MPDPlayerState × Except PyError Unit :=
  if connOk then ({ st with daemon := mpdPause st.daemon }, .ok ())
  else (st, .error (.initializationError connectFailMsg))

/-- `MPDPlayer.stop` (lines 211-218): connect and send `stop`. -/
def MPDPlayer.stop (st : MPDPlayerState) (connOk : Bool) :
    MPDPlayerState × Except PyError Unit :=
  if connOk then ({ st with daemon := mpdStop st.daemon }, .ok ())
  else (st, .error (.initializationError connectFailMsg))

/-- `MPDPlayer.volume` (lines 220-237): coerce with `int()`, range-check, then
connect and send `setvol`. -/
def MPDPlayer.volume (st : MPDPlayerState) (amount : PyVal) (connOk : Bool) :
    MPDPlayerState × Except PyError Unit :=
  match pyInt amount with
  | none => (st, .error (.valueError mpdVolumeMsg))
  | some n =>
    if 0 ≤ n ∧ n ≤ 100 then
      if connOk then ({ st with daemon := mpdSetvol st.daemon n }, .ok ())
      else (st, .error (.initializationError connectFailMsg))
    else (st, .error (.valueError mpdVolumeMsg))

/-- `MPDPlayer.terminate` (lines 239-244): set the status thread's stop flag;
nothing else changes and nothing can fail. -/
def MPDPlayer.terminate (st : MPDPlayerState) : MPDPlayerState × Except PyError Unit :=
  ({ st with statusStop := true }, .ok ())

/-! ## Concrete instances used to exercise the theorems -/

/-- A freshly constructed slave-mode backend with full capability support. -/
def mpSt0 : MPlayerState :=
  { timeout := 15, pausing_keep := "pausing_keep_force", terminated := false,
    monitorLive := false }

/-- A slave-mode backend whose monitor thread is running. -/
def mpStLive : MPlayerState :=
  { timeout := 15, pausing_keep := "pausing_keep_force", terminated := false,
    monitorLive := true }

/-- A freshly constructed idle-protocol backend. -/
def mpdSt0 : MPDPlayerState :=
  { daemon := { queue := [], state := "stop", volumeLevel := 100 }, statusStop := false }

/-! ## Helper lemmas about the status monitor -/

theorem countSig_append (sig : Signal) (a b : List Signal) :
    countSig sig (a ++ b) = countSig sig a + countSig sig b := by
  induction a with
  | nil => simp [countSig]
  | cons s t ih => simp [countSig, ih]; omega

theorem playbackStatusRun_cons (pk : String) (r : Bool) (s : String) (rest : List String) :
    playbackStatusRun pk r (s :: rest) =
      (playbackStatusStep pk r s).2.2 ++
        playbackStatusRun pk (playbackStatusStep pk r s).1 rest := by
  rcases h : playbackStatusStep pk r s with ⟨r2, ws, ks⟩
  simp only [playbackStatusRun, h]

theorem step_song_count (pk : String) (r : Bool) (s : String) :
    countSig Signal.SONG_ENDED (playbackStatusStep pk r s).2.2 =
      (if pyContains eofMarker s then 1 else 0) := by
  unfold playbackStatusStep
  by_cases hs : s = ""
  · subst hs
    simp [countSig, show pyContains eofMarker "" = false from rfl]
  · simp only [if_neg hs]
    by_cases hc : pyContains eofMarker s
    · cases r with
      | false =>
        rcases hsp : searchTimePos s.data with _ | v
        · simp [hc, hsp, countSig]
        · by_cases h30 : (30 : ℚ) ≤ v <;>
            simp [hc, hsp, h30, countSig, countSig_append]
      | true => simp [hc, countSig]
    · cases r with
      | false =>
        rcases hsp : searchTimePos s.data with _ | v
        · simp [hc, hsp, countSig]
        · by_cases h30 : (30 : ℚ) ≤ v <;>
            simp [hc, hsp, h30, countSig, countSig_append]
      | true => simp [hc, countSig]

theorem step_register_of_true (pk : String) (s : String) :
    (playbackStatusStep pk true s).1 = true ∧
      countSig Signal.REGISTER_SONG (playbackStatusStep pk true s).2.2 = 0 := by
  unfold playbackStatusStep
  by_cases hs : s = ""
  · subst hs; simp [countSig]
  · by_cases hc : pyContains eofMarker s <;> simp [hs, hc, countSig]

theorem step_register_of_false (pk : String) (s : String) :
    ((playbackStatusStep pk false s).1 = true ∧
      countSig Signal.REGISTER_SONG (playbackStatusStep pk false s).2.2 = 1) ∨
    ((playbackStatusStep pk false s).1 = false ∧
      countSig Signal.REGISTER_SONG (playbackStatusStep pk false s).2.2 = 0) := by
  unfold playbackStatusStep
  by_cases hs : s = ""
  · subst hs; right; simp [countSig]
  · rcases hsp : searchTimePos s.data with _ | v
    · right; by_cases hc : pyContains eofMarker s <;> simp [hs, hc, hsp, countSig]
    · by_cases h30 : (30 : ℚ) ≤ v
      · left
        by_cases hc : pyContains eofMarker s <;>
          simp [hs, hc, hsp, h30, countSig, countSig_append]
      · right
        by_cases hc : pyContains eofMarker s <;> simp [hs, hc, hsp, h30, countSig]

theorem run_register_of_true (pk : String) (chunks : List String) :
    countSig Signal.REGISTER_SONG (playbackStatusRun pk true chunks) = 0 := by
  induction chunks with
  | nil => rfl
  | cons s rest ih =>
    rw [playbackStatusRun_cons, countSig_append, (step_register_of_true pk s).1,
      (step_register_of_true pk s).2, ih]

theorem run_register_le_one (pk : String) (r : Bool) (chunks : List String) :
    countSig Signal.REGISTER_SONG (playbackStatusRun pk r chunks) ≤ 1 := by
  induction chunks generalizing r with
  | nil => simp [playbackStatusRun, countSig]
  | cons s rest ih =>
    rw [playbackStatusRun_cons, countSig_append]
    cases r with
    | true =>
      rw [(step_register_of_true pk s).1, (step_register_of_true pk s).2,
        run_register_of_true]
      omega
    | false =>
      rcases step_register_of_false pk s with ⟨h1, h2⟩ | ⟨h1, h2⟩
      · rw [h1, h2, run_register_of_true]
      · rw [h1, h2]
        simpa using ih false

theorem run_song_count (pk : String) (r : Bool) (chunks : List String) :
    countSig Signal.SONG_ENDED (playbackStatusRun pk r chunks) =
      (chunks.filter (fun s => pyContains eofMarker s)).length := by
  induction chunks generalizing r with
  | nil => rfl
  | cons s rest ih =>
    rw [playbackStatusRun_cons, countSig_append, step_song_count, List.filter_cons]
    by_cases hc : pyContains eofMarker s <;> simp [hc, ih]
    omega

/-! ## Claim theorems -/

/-- C1 (amended): the slave-mode monitor has no per-track `ended` flag: it
emits one `SONG_ENDED` signal for *every* observed read chunk that contains the
end-of-stream marker, so additional markers cause additional emissions; the
`REGISTER_SONG` (report-threshold) signal, guarded by the `reported` flag, is
emitted at most once per monitor run. -/
theorem song_ended_fires_per_marker_chunk (pk : String) (r : Bool) (chunks : List String) :
    countSig Signal.SONG_ENDED (playbackStatusRun pk r chunks) =
      (chunks.filter (fun s => pyContains eofMarker s)).length ∧
    countSig Signal.REGISTER_SONG (playbackStatusRun pk r chunks) ≤ 1 :=
  ⟨run_song_count pk r chunks, run_register_le_one pk r chunks⟩

/-- C1 counterexample: on a trace where the end-of-stream marker appears in two
successive read chunks of the same track, the monitor (fresh `reported` flag)
sends `SONG_ENDED` twice — the event is not at-most-once per track. -/
theorem song_ended_fires_twice :
    countSig Signal.SONG_ENDED (playbackStatusRun "pausing_keep_force" false
      ["GLOBAL: EOF code: 1\n", "GLOBAL: EOF code: 1\n"]) = 2 ∧
    ¬ countSig Signal.SONG_ENDED (playbackStatusRun "pausing_keep_force" false
      ["GLOBAL: EOF code: 1\n", "GLOBAL: EOF code: 1\n"]) ≤ 1 := by
  constructor <;> decide

/-- C2 counterexample: after `MPDPlayer.terminate()` the idle-protocol backend
remains fully usable — `playpause` succeeds instead of failing with
TerminatedError, contradicting the claim that after terminate every other
operation fails with TerminatedError. -/
theorem mpd_playpause_after_terminate_succeeds :
    (MPDPlayer.terminate mpdSt0).2 = .ok () ∧
    (MPDPlayer.playpause (MPDPlayer.terminate mpdSt0).1 true).2 = .ok () ∧
    (MPDPlayer.playpause (MPDPlayer.terminate mpdSt0).1 true).2 ≠
      .error (.terminatedError deadMPlayerMsg) := by
  refine ⟨rfl, rfl, ?_⟩
  decide

/-- C2 (amended): `terminate()` never fails and is idempotent on both backends.
After `MPlayer.terminate()`, `load`, `playpause`, `stop` and `setVolume` with
an in-range amount all fail with TerminatedError.  After
`MPDPlayer.terminate()` only the status thread stop flag is set; subsequent
operations do not fail with TerminatedError and remain usable. -/
theorem terminate_idempotent_and_disabling (st : MPlayerState) (mst : MPDPlayerState)
    (path : String) (resolve : String → String) (reads : List (ℚ × String))
    (amount : PyVal) (n : ℤ) (hterm : st.terminated = false)
    (hv : pyInt amount = some n) (hlo : 0 ≤ n) (hhi : n ≤ 100) :
    (MPlayer.terminate st).res = .ok () ∧
    (MPlayer.terminate st).state.terminated = true ∧
    MPlayer.terminate (MPlayer.terminate st).state =
      ⟨(MPlayer.terminate st).state, [], .ok ()⟩ ∧
    MPlayer.load (MPlayer.terminate st).state path resolve reads =
      some ⟨(MPlayer.terminate st).state, [], .error (.terminatedError deadMPlayerMsg)⟩ ∧
    (MPlayer.playpause (MPlayer.terminate st).state).res =
      .error (.terminatedError deadMPlayerMsg) ∧
    (MPlayer.stop (MPlayer.terminate st).state).res =
      .error (.terminatedError deadMPlayerMsg) ∧
    (MPlayer.volume (MPlayer.terminate st).state amount).res =
      .error (.terminatedError deadMPlayerMsg) ∧
    (MPDPlayer.terminate mst).2 = .ok () ∧
    (MPDPlayer.terminate mst).1.statusStop = true ∧
    MPDPlayer.terminate (MPDPlayer.terminate mst).1 =
      ((MPDPlayer.terminate mst).1, .ok ()) ∧
    (MPDPlayer.playpause (MPDPlayer.terminate mst).1 true).2 = .ok () ∧
    (MPDPlayer.stop (MPDPlayer.terminate mst).1 true).2 = .ok () ∧
    (MPDPlayer.volume (MPDPlayer.terminate mst).1 amount true).2 = .ok () := by
  cases hm : st.monitorLive <;>
    simp [MPlayer.terminate, stopBackgroundThread, sendCommand, MPlayer.load,
      MPlayer.playpause, MPlayer.stop, MPlayer.volume, MPDPlayer.terminate,
      MPDPlayer.playpause, MPDPlayer.stop, MPDPlayer.volume, hterm, hm, hv, hlo, hhi]

/-- C2 witness. -/
theorem terminate_idempotent_and_disabling_witness :
    (MPlayer.terminate mpSt0).res = .ok () ∧
    (MPlayer.terminate mpSt0).state.terminated = true ∧
    MPlayer.terminate (MPlayer.terminate mpSt0).state =
      ⟨(MPlayer.terminate mpSt0).state, [], .ok ()⟩ ∧
    MPlayer.load (MPlayer.terminate mpSt0).state "http://host/a.mp3" id [] =
      some ⟨(MPlayer.terminate mpSt0).state, [], .error (.terminatedError deadMPlayerMsg)⟩ ∧
    (MPlayer.playpause (MPlayer.terminate mpSt0).state).res =
      .error (.terminatedError deadMPlayerMsg) ∧
    (MPlayer.stop (MPlayer.terminate mpSt0).state).res =
      .error (.terminatedError deadMPlayerMsg) ∧
    (MPlayer.volume (MPlayer.terminate mpSt0).state (PyVal.int 50)).res =
      .error (.terminatedError deadMPlayerMsg) ∧
    (MPDPlayer.terminate mpdSt0).2 = .ok () ∧
    (MPDPlayer.terminate mpdSt0).1.statusStop = true ∧
    MPDPlayer.terminate (MPDPlayer.terminate mpdSt0).1 =
      ((MPDPlayer.terminate mpdSt0).1, .ok ()) ∧
    (MPDPlayer.playpause (MPDPlayer.terminate mpdSt0).1 true).2 = .ok () ∧
    (MPDPlayer.stop (MPDPlayer.terminate mpdSt0).1 true).2 = .ok () ∧
    (MPDPlayer.volume (MPDPlayer.terminate mpdSt0).1 (PyVal.int 50) true).2 = .ok () :=
  terminate_idempotent_and_disabling mpSt0 mpdSt0 "http://host/a.mp3" id []
    (PyVal.int 50) 50 rfl rfl (by decide) (by decide)

/-- C3: when the playback-start wait loop of `load` times out without ever
seeing the started marker, the caller receives the playback-start error (a
RuntimeError), the backend is forcibly terminated as a side effect, and a
subsequent `playpause()` fails with TerminatedError. -/
theorem load_timeout_playback_error (st : MPlayerState) (path : String)
    (resolve : String → String) (reads : List (ℚ × String))
    (hterm : st.terminated = false)
    (hscan : loadScan st.timeout reads = some LoadOutcome.timedOut) :
    ∃ out : MPOut, MPlayer.load st path resolve reads = some out ∧
      out.res = .error (.runtimeError playbackTimeoutMsg) ∧
      specKind (.runtimeError playbackTimeoutMsg) = some SpecErrorKind.playbackStart ∧
      out.state.terminated = true ∧
      MPAction.procTerminate ∈ out.actions ∧
      (MPlayer.playpause out.state).res = .error (.terminatedError deadMPlayerMsg) := by
  cases hm : st.monitorLive
  case false =>
    have hload : MPlayer.load st path resolve reads =
        some ⟨{ st with terminated := true },
          [.write (loadLine (fixHttps (resolve path)) ++ "\n"), .procTerminate],
          .error (.runtimeError playbackTimeoutMsg)⟩ := by
      simp [MPlayer.load, stopBackgroundThread, sendCommand, MPlayer.terminate,
        hterm, hm, hscan]
    exact ⟨_, hload, rfl, by decide, rfl, by simp, by
      simp [MPlayer.playpause, sendCommand]⟩
  case true =>
    have hload : MPlayer.load st path resolve reads =
        some ⟨{ st with monitorLive := false, terminated := true },
          [.stopJoinMonitor, .write (loadLine (fixHttps (resolve path)) ++ "\n"),
            .procTerminate],
          .error (.runtimeError playbackTimeoutMsg)⟩ := by
      simp [MPlayer.load, stopBackgroundThread, sendCommand, MPlayer.terminate,
        hterm, hm, hscan]
    exact ⟨_, hload, rfl, by decide, rfl, by simp, by
      simp [MPlayer.playpause, sendCommand]⟩

/-- C3 witness. -/
theorem load_timeout_playback_error_witness :
    ∃ out : MPOut, MPlayer.load mpSt0 "http://host/a.mp3" id [((16 : ℚ), "")] = some out ∧
      out.res = .error (.runtimeError playbackTimeoutMsg) ∧
      specKind (.runtimeError playbackTimeoutMsg) = some SpecErrorKind.playbackStart ∧
      out.state.terminated = true ∧
      MPAction.procTerminate ∈ out.actions ∧
      (MPlayer.playpause out.state).res = .error (.terminatedError deadMPlayerMsg) :=
  load_timeout_playback_error mpSt0 "http://host/a.mp3" id [((16 : ℚ), "")] rfl (by decide)

/-- C4 counterexample: `100.5` lies outside `[0, 100]`, yet `volume(100.5)`
succeeds — `int()` truncates it to `100` before the range check, and the
command `pausing_keep_force volume 100 1` is written, contradicting the claim
that every out-of-range amount fails with no write. -/
theorem volume_out_of_range_float_accepted :
    ¬ ((0 : ℚ) ≤ mkRat 201 2 ∧ mkRat 201 2 ≤ 100) ∧
    (MPlayer.volume mpSt0 (PyVal.float (mkRat 201 2))).res = .ok () ∧
    (MPlayer.volume mpSt0 (PyVal.float (mkRat 201 2))).actions =
      [MPAction.write "pausing_keep_force volume 100 1\n"] := by
  refine ⟨by rw [Rat.mkRat_eq_div]; norm_num, by decide, by decide⟩

/-- C4 (amended): for every amount whose `int()` coercion lands outside
`0..100` — in particular every integer outside `[0, 100]` — `volume` fails
with ValueError (the spec's InvalidArgumentError) on both backends, with no
command written and the state unchanged; amounts that `int()` truncates into
the range, such as `100.5`, are accepted instead. -/
theorem volume_rejects_int_out_of_range (st : MPlayerState) (mst : MPDPlayerState)
    (connOk : Bool) (v : PyVal) (n : ℤ) (hv : pyInt v = some n)
    (hout : ¬ (0 ≤ n ∧ n ≤ 100)) :
    MPlayer.volume st v = ⟨st, [], .error (.valueError mplayerVolumeMsg)⟩ ∧
    MPDPlayer.volume mst v connOk = (mst, .error (.valueError mpdVolumeMsg)) ∧
    specKind (.valueError mplayerVolumeMsg) = some SpecErrorKind.invalidArgument := by
  refine ⟨?_, ?_, by decide⟩
  · unfold MPlayer.volume
    simp [hv, hout]
  · unfold MPDPlayer.volume
    simp [hv, hout]

/-- C4 witness. -/
theorem volume_rejects_int_out_of_range_witness :
    MPlayer.volume mpSt0 (PyVal.int 101) =
      ⟨mpSt0, [], .error (.valueError mplayerVolumeMsg)⟩ ∧
    MPDPlayer.volume mpdSt0 (PyVal.int 101) true =
      (mpdSt0, .error (.valueError mpdVolumeMsg)) ∧
    specKind (.valueError mplayerVolumeMsg) = some SpecErrorKind.invalidArgument :=
  volume_rejects_int_out_of_range mpSt0 mpdSt0 true (PyVal.int 101) 101 rfl (by decide)

/-- C5: when the startup banner never arrives within the handshake deadline,
construction raises the handshake-timeout error (the spec's
InitializationError), and no construction outcome ever leaves a background
monitor thread running. -/
theorem handshake_timeout_initialization (retcode : ℤ) (timeout : ℚ)
    (handshake probe : List (ℚ × String)) (h127 : retcode ≠ 127)
    (hscan : handshakeScan timeout handshake = some false) :
    MPlayer.init retcode timeout handshake probe =
      some (.error (.runtimeError handshakeTimeoutMsg)) ∧
    specKind (.runtimeError handshakeTimeoutMsg) = some SpecErrorKind.initialization ∧
    (∀ rc t hs pr st, MPlayer.init rc t hs pr = some (.ok st) →
      st.monitorLive = false) := by
  refine ⟨?_, by decide, ?_⟩
  · unfold MPlayer.init
    rw [if_neg h127, hscan]
  · intro rc t hs pr st h
    unfold MPlayer.init at h
    by_cases h1 : rc = 127
    · simp [h1] at h
    · rw [if_neg h1] at h
      rcases h2 : handshakeScan t hs with _ | b
      · rw [h2] at h
        exact absurd h (by simp)
      · cases b
        · rw [h2] at h
          simp at h
        · rw [h2] at h
          simp only [Option.some.injEq, Except.ok.injEq] at h
          subst h
          rfl

/-- C5 witness. -/
theorem handshake_timeout_initialization_witness :
    MPlayer.init 0 15 [((16 : ℚ), "")] [] =
      some (.error (.runtimeError handshakeTimeoutMsg)) ∧
    specKind (.runtimeError handshakeTimeoutMsg) = some SpecErrorKind.initialization ∧
    (∀ rc t hs pr st, MPlayer.init rc t hs pr = some (.ok st) →
      st.monitorLive = false) :=
  handshake_timeout_initialization 0 15 [((16 : ℚ), "")] [] (by decide) (by decide)

theorem step_fires_threshold (pk : String) (s : String) (hne : ¬ s = "")
    (heof : pyContains eofMarker s = false) (v : ℚ)
    (hv : searchTimePos s.data = some v) (h30 : (30 : ℚ) ≤ v) :
    playbackStatusStep pk false s =
      (true, [pk ++ " get_time_pos\n"], [Signal.REGISTER_SONG]) := by
  simp [playbackStatusStep, hne, heof, hv, h30]

/-- C6: every `load` stops and joins a running monitor before writing the
`loadfile` command (the stop-join action strictly precedes the write in the
recorded action order), and on success starts a fresh monitor whose per-track
`reported` flag is cleared, so a `REGISTER_SONG` (report-threshold) event can
fire again for the newly loaded track. -/
theorem load_stops_monitor_and_resets_flags (st : MPlayerState) (path : String)
    (resolve : String → String) (reads : List (ℚ × String))
    (hterm : st.terminated = false) (hlive : st.monitorLive = true)
    (hscan : loadScan st.timeout reads = some LoadOutcome.started) :
    ∃ out : MPOut, MPlayer.load st path resolve reads = some out ∧
      out.actions = [MPAction.stopJoinMonitor,
        MPAction.write (loadLine (fixHttps (resolve path)) ++ "\n"),
        MPAction.startMonitor] ∧
      out.res = .ok () ∧
      out.state.monitorLive = true ∧
      countSig Signal.REGISTER_SONG
        (startedMonitorRun out.state ["GLOBAL: ANS_TIME_POSITION=31.2\n"]) = 1 := by
  have hload : MPlayer.load st path resolve reads =
      some ⟨{ st with monitorLive := true },
        [MPAction.stopJoinMonitor,
          MPAction.write (loadLine (fixHttps (resolve path)) ++ "\n"),
          MPAction.startMonitor], .ok ()⟩ := by
    simp [MPlayer.load, stopBackgroundThread, sendCommand, hterm, hlive, hscan]
  refine ⟨_, hload, rfl, rfl, rfl, ?_⟩
  unfold startedMonitorRun
  rw [playbackStatusRun_cons,
    step_fires_threshold _ _ (by decide) (by decide) (mkRat 156 5) (by decide) (by decide)]
  simp [playbackStatusRun, countSig]

/-- C6 witness. -/
theorem load_stops_monitor_and_resets_flags_witness :
    ∃ out : MPOut, MPlayer.load mpStLive "http://host/b.mp3" id
        [((0 : ℚ), "CPLAYER: Starting playback...")] = some out ∧
      out.actions = [MPAction.stopJoinMonitor,
        MPAction.write (loadLine (fixHttps (id "http://host/b.mp3")) ++ "\n"),
        MPAction.startMonitor] ∧
      out.res = .ok () ∧
      out.state.monitorLive = true ∧
      countSig Signal.REGISTER_SONG
        (startedMonitorRun out.state ["GLOBAL: ANS_TIME_POSITION=31.2\n"]) = 1 :=
  load_stops_monitor_and_resets_flags mpStLive "http://host/b.mp3" id
    [((0 : ℚ), "CPLAYER: Starting playback...")] rfl rfl (by decide)

/-- C7: `load` downgrades the transport scheme before sending: the `loadfile`
command written to the player carries the resolved URL with a leading `https:`
replaced by `http:`, and a URL not starting with `https:` is transmitted with
its scheme unchanged. -/
theorem load_downgrades_https (st : MPlayerState) (path : String)
    (resolve : String → String) (reads : List (ℚ × String))
    (hterm : st.terminated = false)
    (hscan : loadScan st.timeout reads = some LoadOutcome.started) :
    ∃ out : MPOut, MPlayer.load st path resolve reads = some out ∧
      MPAction.write (loadLine (fixHttps (resolve path)) ++ "\n") ∈ out.actions ∧
      (pyStartsWith "https:" (resolve path) = true →
        fixHttps (resolve path) = "http:" ++ strDrop (resolve path) 6) ∧
      (pyStartsWith "https:" (resolve path) = false →
        fixHttps (resolve path) = resolve path) := by
  cases hm : st.monitorLive
  case false =>
    have hload : MPlayer.load st path resolve reads =
        some ⟨{ st with monitorLive := true },
          [MPAction.write (loadLine (fixHttps (resolve path)) ++ "\n"),
            MPAction.startMonitor], .ok ()⟩ := by
      simp [MPlayer.load, stopBackgroundThread, sendCommand, hterm, hm, hscan]
    exact ⟨_, hload, by simp, fun h => by simp [fixHttps, h], fun h => by simp [fixHttps, h]⟩
  case true =>
    have hload : MPlayer.load st path resolve reads =
        some ⟨{ st with monitorLive := true },
          [MPAction.stopJoinMonitor,
            MPAction.write (loadLine (fixHttps (resolve path)) ++ "\n"),
            MPAction.startMonitor], .ok ()⟩ := by
      simp [MPlayer.load, stopBackgroundThread, sendCommand, hterm, hm, hscan]
    exact ⟨_, hload, by simp, fun h => by simp [fixHttps, h], fun h => by simp [fixHttps, h]⟩

/-- C7 witness: `load("https://host/track.mp3")` transmits
`loadfile http://host/track.mp3`. -/
theorem load_downgrades_https_witness :
    ∃ out : MPOut, MPlayer.load mpSt0 "https://host/track.mp3" id
        [((0 : ℚ), "CPLAYER: Starting playback...")] = some out ∧
      MPAction.write "loadfile http://host/track.mp3\n" ∈ out.actions ∧
      (pyStartsWith "https:" (id "https://host/track.mp3") = true →
        fixHttps (id "https://host/track.mp3") =
          "http:" ++ strDrop (id "https://host/track.mp3") 6) ∧
      (pyStartsWith "https:" (id "https://host/track.mp3") = false →
        fixHttps (id "https://host/track.mp3") = id "https://host/track.mp3") :=
  load_downgrades_https mpSt0 "https://host/track.mp3" id
    [((0 : ℚ), "CPLAYER: Starting playback...")] rfl (by decide)

/-- C8 counterexample: even when the capability probe detects no support and
the backend records the fallback prefix, the pause command is transmitted as
bare `pause` — it does not carry the `pausing_keep` fallback form, so the
fallback is not used for "all subsequent pause and volume commands". -/
theorem pause_command_lacks_fallback_form :
    MPlayer.init 0 15 [((0 : ℚ), "CPLAYER: MPlayer 1.0")] [] =
      some (.ok ⟨15, "pausing_keep", false, false⟩) ∧
    (MPlayer.playpause ⟨15, "pausing_keep", false, false⟩).actions =
      [MPAction.write "pause\n"] ∧
    pyContains "pausing_keep" "pause\n" = false := by
  refine ⟨rfl, rfl, by decide⟩

/-- C8 (amended): when the capability probe receives no response containing
the expected error substring within its 100ms window, the backend records the
capability as unsupported and uses the fallback `pausing_keep` prefix for the
subsequent volume and stop commands and for the monitor's position query; the
pause command, however, is always sent as bare `pause` with no prefix. -/
theorem probe_no_response_uses_fallback (retcode : ℤ) (timeout : ℚ)
    (handshake probe : List (ℚ × String)) (h127 : retcode ≠ 127)
    (hbanner : handshakeScan timeout handshake = some true)
    (hprobe : probeScan probe = false) :
    ∃ st : MPlayerState, MPlayer.init retcode timeout handshake probe = some (.ok st) ∧
      st.pausing_keep = "pausing_keep" ∧
      (MPlayer.volume st (PyVal.int 50)).actions =
        [MPAction.write "pausing_keep volume 50 1\n"] ∧
      (MPlayer.stop st).actions = [MPAction.write "pausing_keep stop\n"] ∧
      (playbackStatusStep st.pausing_keep false "").2.1 =
        ["pausing_keep get_time_pos\n"] ∧
      (MPlayer.playpause st).actions = [MPAction.write "pause\n"] := by
  have hinit : MPlayer.init retcode timeout handshake probe =
      some (.ok ⟨timeout, "pausing_keep", false, false⟩) := by
    unfold MPlayer.init
    rw [if_neg h127, hbanner]
    simp [hprobe]
  exact ⟨_, hinit, rfl, rfl, rfl, rfl, rfl⟩

/-- C8 witness: banner at 50ms within a 2000ms-equivalent deadline, probe
window expiring with no response. -/
theorem probe_no_response_uses_fallback_witness :
    ∃ st : MPlayerState, MPlayer.init 0 2 [((mkRat 1 20), "CPLAYER: MPlayer 1.0")]
        [((mkRat 1 20), ""), ((mkRat 3 20), "")] = some (.ok st) ∧
      st.pausing_keep = "pausing_keep" ∧
      (MPlayer.volume st (PyVal.int 50)).actions =
        [MPAction.write "pausing_keep volume 50 1\n"] ∧
      (MPlayer.stop st).actions = [MPAction.write "pausing_keep stop\n"] ∧
      (playbackStatusStep st.pausing_keep false "").2.1 =
        ["pausing_keep get_time_pos\n"] ∧
      (MPlayer.playpause st).actions = [MPAction.write "pause\n"] :=
  probe_no_response_uses_fallback 0 2 [((mkRat 1 20), "CPLAYER: MPlayer 1.0")]
    [((mkRat 1 20), ""), ((mkRat 3 20), "")] (by decide) (by decide) (by decide)

/-- C9: every successful `MPDPlayer.load` clears the daemon queue before
adding the new track, so afterwards the queue contains exactly one enqueued
track: the newly loaded one. -/
theorem mpd_load_leaves_single_track (mst : MPDPlayerState) (path : String)
    (resolve : String → String) :
    (MPDPlayer.load mst path resolve true).1.daemon.queue = [resolve path] ∧
    (MPDPlayer.load mst path resolve true).1.daemon.queue.length = 1 ∧
    (MPDPlayer.load mst path resolve true).2 = .ok () :=
  ⟨rfl, rfl, rfl⟩

/-- C10: `volume` coerces its argument with `int()` before range-checking:
`volume(99.9)` is accepted and sends 99, the numeric string `"50"` is accepted
and sends 50, and a value `int()` cannot convert fails with ValueError on both
backends with no command sent. -/
theorem volume_int_coercion_domain (st : MPlayerState) (mst : MPDPlayerState)
    (v : PyVal) (hterm : st.terminated = false) (hbad : pyInt v = none) :
    pyInt (PyVal.float (mkRat 999 10)) = some 99 ∧
    (MPlayer.volume st (PyVal.float (mkRat 999 10))).res = .ok () ∧
    (MPlayer.volume st (PyVal.float (mkRat 999 10))).actions =
      [MPAction.write (volumeLine st.pausing_keep 99 ++ "\n")] ∧
    pyInt (PyVal.str "50") = some 50 ∧
    (MPlayer.volume st (PyVal.str "50")).res = .ok () ∧
    (MPlayer.volume st (PyVal.str "50")).actions =
      [MPAction.write (volumeLine st.pausing_keep 50 ++ "\n")] ∧
    MPlayer.volume st v = ⟨st, [], .error (.valueError mplayerVolumeMsg)⟩ ∧
    MPDPlayer.volume mst v true = (mst, .error (.valueError mpdVolumeMsg)) := by
  have h99 : pyInt (PyVal.float (mkRat 999 10)) = some 99 := by decide
  have h50 : pyInt (PyVal.str "50") = some 50 := by decide
  refine ⟨h99, ?_, ?_, h50, ?_, ?_, ?_, ?_⟩
  · simp [MPlayer.volume, h99, sendCommand, hterm]
  · simp [MPlayer.volume, h99, sendCommand, hterm]
  · simp [MPlayer.volume, h50, sendCommand, hterm]
  · simp [MPlayer.volume, h50, sendCommand, hterm]
  · simp [MPlayer.volume, hbad]
  · simp [MPDPlayer.volume, hbad]

/-- C10 witness. -/
theorem volume_int_coercion_domain_witness :
    pyInt (PyVal.float (mkRat 999 10)) = some 99 ∧
    (MPlayer.volume mpSt0 (PyVal.float (mkRat 999 10))).res = .ok () ∧
    (MPlayer.volume mpSt0 (PyVal.float (mkRat 999 10))).actions =
      [MPAction.write (volumeLine mpSt0.pausing_keep 99 ++ "\n")] ∧
    pyInt (PyVal.str "50") = some 50 ∧
    (MPlayer.volume mpSt0 (PyVal.str "50")).res = .ok () ∧
    (MPlayer.volume mpSt0 (PyVal.str "50")).actions =
      [MPAction.write (volumeLine mpSt0.pausing_keep 50 ++ "\n")] ∧
    MPlayer.volume mpSt0 (PyVal.str "abc") =
      ⟨mpSt0, [], .error (.valueError mplayerVolumeMsg)⟩ ∧
    MPDPlayer.volume mpdSt0 (PyVal.str "abc") true =
      (mpdSt0, .error (.valueError mpdVolumeMsg)) :=
  volume_int_coercion_domain mpSt0 mpdSt0 (PyVal.str "abc") rfl (by decide)

end Orochi
